import Mathlib

/-!
Shallow embedding of the financial projection core of `src/app.js`
(investment simulator): the pure functions `calculateNetAnnualReturn`,
`calculateMonthlyRate` and `generateMonthlySeries` (lines 9-106).

JavaScript numbers are modelled as real numbers (ℝ).  Over ℝ every value
is finite, so the `Number.isFinite` test of line 83 is modelled as an
explicit boolean flag of the selection function `fallbackFutureValue`
(the flag is `true` in `generateMonthlySeries`, since the real-valued
formula always yields a finite real); the branch structure of the
fallback (lines 83-87) is kept verbatim.  `Math.round` is `round`
(half rounds up, as in JS), `Math.pow(b, 1/12)` is real `rpow`, and
`Math.pow(1 + r, totalMonths)` is `zpow` on the integer month count.
-/

namespace InvestmentSimulator

/-- The six scalar inputs of `generateMonthlySeries` (src/app.js lines 40-48). -/
structure Params where
  initialCapital : ℝ
  monthlyContribution : ℝ
  grossAnnualReturn : ℝ
  annualFee : ℝ
  annualInflation : ℝ
  years : ℝ

/-- One element pushed onto `series` (src/app.js lines 69-74). -/
structure SeriesEntry where
  month : ℕ
  totalContributed : ℝ
  interestAccumulated : ℝ
  totalValue : ℝ

/-- The `summary` object returned by `generateMonthlySeries` (src/app.js lines 96-104). -/
structure Summary where
  netAnnualRate : ℝ
  monthlyRate : ℝ
  totalMonths : ℤ
  futureValue : ℝ
  futureValueReal : ℝ
  totalContributed : ℝ
  totalGrowth : ℝ

/-- The `{series, summary}` return value of `generateMonthlySeries`. -/
structure SimResult where
  series : List SeriesEntry
  summary : Summary

/-- `calculateNetAnnualReturn` (src/app.js lines 9-13):
`(1 + gross/100) * (1 - fee/100) - 1`. -/
noncomputable def calculateNetAnnualReturn (grossAnnualRate annualFeeRate : ℝ) : ℝ :=
  let grossFactor := 1 + grossAnnualRate / 100
  let feeFactor := 1 - annualFeeRate / 100
  grossFactor * feeFactor - 1

/-- `calculateMonthlyRate` (src/app.js lines 20-27): `-1` when
`1 + netAnnualRate <= 0`, otherwise `(1 + netAnnualRate)^(1/12) - 1`
(real 12th root via `rpow`, matching `Math.pow(base, 1/12)` on a
positive base). -/
noncomputable def calculateMonthlyRate (netAnnualRate : ℝ) : ℝ :=
  let base := 1 + netAnnualRate
  if base ≤ 0 then -1
  else base ^ ((1 : ℝ) / 12) - 1

/-- The `for` loop of src/app.js lines 58-75: runs `fuel` more iterations,
`month` is the current loop counter, `balance`/`contributed` the current
mutable state.  Each iteration multiplies the balance by `1 + monthlyRate`
when the rate is nonzero, adds the contribution to both accumulators and
pushes an entry. -/
noncomputable def simLoop (monthlyRate monthlyContribution : ℝ) :
    ℕ → ℕ → ℝ → ℝ → List SeriesEntry
  | _, 0, _, _ => []
  | month, fuel + 1, balance, contributed =>
    let balance' :=
      (if monthlyRate ≠ 0 then balance * (1 + monthlyRate) else balance)
        + monthlyContribution
    let contributed' := contributed + monthlyContribution
    { month := month
      totalContributed := contributed'
      interestAccumulated := balance' - contributed'
      totalValue := balance' } ::
      simLoop monthlyRate monthlyContribution (month + 1) fuel balance' contributed'

/-- The selection of src/app.js lines 83-87: use the closed-form value when
it is finite, otherwise the last series entry's `totalValue`, or
`initialCapital` for an empty series.  Finiteness of the formula value is
an explicit flag because every real number is finite. -/
noncomputable def fallbackFutureValue (formulaValue : ℝ) (formulaIsFinite : Bool)
    (series : List SeriesEntry) (initialCapital : ℝ) : ℝ :=
  if formulaIsFinite then formulaValue
  else
    match series.getLast? with
    | some entry => entry.totalValue
    | none => initialCapital

/-- `generateMonthlySeries` (src/app.js lines 40-106). -/
noncomputable def generateMonthlySeries (p : Params) : SimResult :=
  let netAnnualRate := calculateNetAnnualReturn p.grossAnnualReturn p.annualFee
  let monthlyRate := calculateMonthlyRate netAnnualRate
  let totalMonths : ℤ := round (p.years * 12)
  let series :=
    simLoop monthlyRate p.monthlyContribution 1 totalMonths.toNat
      p.initialCapital p.initialCapital
  let growthFactor := (1 + monthlyRate) ^ totalMonths
  let futureValueFormula :=
    if |monthlyRate| < 1e-12 then
      p.initialCapital + p.monthlyContribution * (totalMonths : ℝ)
    else
      p.initialCapital * growthFactor
        + p.monthlyContribution * ((growthFactor - 1) / monthlyRate)
  let futureValue := fallbackFutureValue futureValueFormula true series p.initialCapital
  let totalContributions := p.initialCapital + p.monthlyContribution * (totalMonths : ℝ)
  let totalGrowth := futureValue - totalContributions
  let inflationFactor := (1 + p.annualInflation / 100) ^ p.years
  let futureValueReal :=
    if inflationFactor ≠ 0 then futureValue / inflationFactor else futureValue
  { series := series
    summary :=
      { netAnnualRate := netAnnualRate
        monthlyRate := monthlyRate
        totalMonths := totalMonths
        futureValue := futureValue
        futureValueReal := futureValueReal
        totalContributed := totalContributions
        totalGrowth := totalGrowth } }

/-- Balance after `n` months of the unconditional recurrence described by the
spec: start at `initialCapital`, each month multiply by `1 + monthlyRate`
and add `monthlyContribution`. -/
noncomputable def balanceAfter (monthlyRate monthlyContribution initialCapital : ℝ) :
    ℕ → ℝ
  | 0 => initialCapital
  | n + 1 =>
    balanceAfter monthlyRate monthlyContribution initialCapital n * (1 + monthlyRate)
      + monthlyContribution

/-- The guarded loop body equals the unconditional recurrence step: when the
rate is zero, multiplying by `1 + 0` is the identity. -/
lemma step_eq (r C b : ℝ) :
    (if r ≠ 0 then b * (1 + r) else b) + C = b * (1 + r) + C := by
  by_cases hr : r = 0
  · simp [hr]
  · simp [hr]

lemma simLoop_length (r C : ℝ) :
    ∀ (fuel month : ℕ) (b c : ℝ), (simLoop r C month fuel b c).length = fuel := by
  intro fuel
  induction fuel with
  | zero => intro month b c; simp [simLoop]
  | succ n ih => intro month b c; simp [simLoop, ih]

lemma balanceAfter_shift (r C b : ℝ) :
    ∀ n, balanceAfter r C (b * (1 + r) + C) n = balanceAfter r C b (n + 1) := by
  intro n
  induction n with
  | zero => simp [balanceAfter]
  | succ k ih => simp only [balanceAfter, ih]

/-- Entry `i` (0-based) of the loop output: month counter advances from
`month`, the contributed accumulator advances by `C` per month, and the
balance follows `balanceAfter`. -/
lemma simLoop_getElem? (r C : ℝ) :
    ∀ (fuel i month : ℕ) (b c : ℝ), i < fuel →
      (simLoop r C month fuel b c)[i]? =
        some
          { month := month + i
            totalContributed := c + C * ((i : ℝ) + 1)
            interestAccumulated :=
              balanceAfter r C b (i + 1) - (c + C * ((i : ℝ) + 1))
            totalValue := balanceAfter r C b (i + 1) } := by
  intro fuel
  induction fuel with
  | zero => intro i month b c hi; omega
  | succ n ih =>
    intro i month b c hi
    match i with
    | 0 =>
      have hb : (if r ≠ 0 then b * (1 + r) else b) + C = balanceAfter r C b 1 := by
        rw [step_eq]; simp [balanceAfter]
      simp only [simLoop, List.getElem?_cons_zero, Option.some.injEq,
        SeriesEntry.mk.injEq, hb]
      norm_num
    | j + 1 =>
      have hb : ∀ m, balanceAfter r C ((if r ≠ 0 then b * (1 + r) else b) + C) m =
          balanceAfter r C b (m + 1) := by
        intro m; rw [step_eq, balanceAfter_shift]
      simp only [simLoop, List.getElem?_cons_succ]
      rw [ih j (month + 1) ((if r ≠ 0 then b * (1 + r) else b) + C) (c + C)
        (by omega)]
      simp only [Option.some.injEq, SeriesEntry.mk.injEq, hb]
      refine ⟨by omega, by push_cast; ring, by push_cast; ring, by trivial⟩

/-- Closed-form solution of the recurrence for a nonzero rate: the standard
ordinary-annuity formula. -/
lemma balanceAfter_closed (r C P : ℝ) (hr : r ≠ 0) :
    ∀ n : ℕ,
      balanceAfter r C P n =
        P * (1 + r) ^ n + C * (((1 + r) ^ n - 1) / r) := by
  intro n
  induction n with
  | zero => simp [balanceAfter]
  | succ k ih =>
    simp only [balanceAfter, ih, pow_succ]
    field_simp
    ring

/-- Every entry the loop pushes satisfies the additivity invariant by
construction. -/
lemma simLoop_invariant (r C : ℝ) :
    ∀ (fuel month : ℕ) (b c : ℝ) (e : SeriesEntry),
      e ∈ simLoop r C month fuel b c →
        e.totalValue = e.totalContributed + e.interestAccumulated := by
  intro fuel
  induction fuel with
  | zero => intro month b c e he; simp [simLoop] at he
  | succ n ih =>
    intro month b c e he
    simp only [simLoop, List.mem_cons] at he
    rcases he with he | he
    · subst he; simp; ring
    · exact ih _ _ _ e he

/-- The balances the loop records stay nonnegative when the state, the
contribution and the growth factor are nonnegative. -/
lemma simLoop_nonneg (r C : ℝ) (hC : 0 ≤ C) (hr : 0 ≤ 1 + r) :
    ∀ (fuel month : ℕ) (b c : ℝ), 0 ≤ b →
      ∀ e ∈ simLoop r C month fuel b c, 0 ≤ e.totalValue := by
  intro fuel
  induction fuel with
  | zero => intro month b c hb e he; simp [simLoop] at he
  | succ n ih =>
    intro month b c hb e he
    have hb' : 0 ≤ (if r ≠ 0 then b * (1 + r) else b) + C := by
      rw [step_eq]; positivity
    simp only [simLoop, List.mem_cons] at he
    rcases he with he | he
    · subst he; exact hb'
    · exact ih _ _ _ hb' e he

/-! Definitional characterizations of the fields of `generateMonthlySeries`,
shared by the claim proofs and their witnesses. -/

lemma monthlyRate_def (p : Params) :
    (generateMonthlySeries p).summary.monthlyRate =
      calculateMonthlyRate (calculateNetAnnualReturn p.grossAnnualReturn p.annualFee) := rfl

lemma totalMonths_def (p : Params) :
    (generateMonthlySeries p).summary.totalMonths = round (p.years * 12) := rfl

lemma series_def (p : Params) :
    (generateMonthlySeries p).series =
      simLoop (calculateMonthlyRate (calculateNetAnnualReturn p.grossAnnualReturn p.annualFee))
        p.monthlyContribution 1 (round (p.years * 12)).toNat
        p.initialCapital p.initialCapital := rfl

lemma futureValue_def (p : Params) :
    (generateMonthlySeries p).summary.futureValue =
      if |calculateMonthlyRate (calculateNetAnnualReturn p.grossAnnualReturn p.annualFee)|
          < 1e-12 then
        p.initialCapital + p.monthlyContribution * ((round (p.years * 12) : ℤ) : ℝ)
      else
        p.initialCapital *
            (1 + calculateMonthlyRate (calculateNetAnnualReturn p.grossAnnualReturn p.annualFee))
              ^ (round (p.years * 12) : ℤ)
          + p.monthlyContribution *
            (((1 + calculateMonthlyRate
                  (calculateNetAnnualReturn p.grossAnnualReturn p.annualFee))
                ^ (round (p.years * 12) : ℤ) - 1) /
              calculateMonthlyRate (calculateNetAnnualReturn p.grossAnnualReturn p.annualFee)) :=
  rfl

lemma futureValueReal_def (p : Params) :
    (generateMonthlySeries p).summary.futureValueReal =
      if (1 + p.annualInflation / 100) ^ p.years ≠ 0 then
        (generateMonthlySeries p).summary.futureValue / (1 + p.annualInflation / 100) ^ p.years
      else (generateMonthlySeries p).summary.futureValue := rfl

/-- The monthly rate the converter produces is never below `-1`. -/
lemma calculateMonthlyRate_ge (netAnnualRate : ℝ) :
    -1 ≤ calculateMonthlyRate netAnnualRate := by
  rcases le_or_lt (1 + netAnnualRate) 0 with h | h
  · simp only [calculateMonthlyRate, if_pos h, le_refl]
  · simp only [calculateMonthlyRate, if_neg (not_le.mpr h)]
    have hpos : 0 < (1 + netAnnualRate) ^ ((1 : ℝ) / 12) :=
      Real.rpow_pos_of_pos h _
    linarith

/-- C6: for every pair of reals, `calculateNetAnnualReturn` returns
`(1 + gross/100) * (1 - fee/100) - 1`; it is total (a function on ℝ × ℝ)
with no failure cases. -/
theorem C6_netAnnualReturn_formula (grossAnnualRate annualFeeRate : ℝ) :
    calculateNetAnnualReturn grossAnnualRate annualFeeRate =
      (1 + grossAnnualRate / 100) * (1 - annualFeeRate / 100) - 1 := rfl

/-- C5: `calculateMonthlyRate` returns exactly `-1` when
`1 + netAnnualRate ≤ 0` (equivalently, the result is `-1` exactly iff
`netAnnualRate ≤ -1`), and otherwise returns `(1 + netAnnualRate)^(1/12) - 1`. -/
theorem C5_monthlyRate_cases (netAnnualRate : ℝ) :
    (calculateMonthlyRate netAnnualRate = -1 ↔ netAnnualRate ≤ -1) ∧
    (1 + netAnnualRate ≤ 0 → calculateMonthlyRate netAnnualRate = -1) ∧
    (0 < 1 + netAnnualRate →
      calculateMonthlyRate netAnnualRate =
        (1 + netAnnualRate) ^ ((1 : ℝ) / 12) - 1) := by
  rcases le_or_lt (1 + netAnnualRate) 0 with h | h
  · have he : calculateMonthlyRate netAnnualRate = -1 := by
      simp only [calculateMonthlyRate, if_pos h]
    exact ⟨⟨fun _ => by linarith, fun _ => he⟩, fun _ => he,
      fun h' => absurd h (not_le.mpr h')⟩
  · have he : calculateMonthlyRate netAnnualRate =
        (1 + netAnnualRate) ^ ((1 : ℝ) / 12) - 1 := by
      simp only [calculateMonthlyRate, if_neg (not_le.mpr h)]
    have hpos : 0 < (1 + netAnnualRate) ^ ((1 : ℝ) / 12) :=
      Real.rpow_pos_of_pos h _
    refine ⟨⟨fun heq => ?_, fun hle => absurd hle (by push_neg; linarith)⟩,
      fun hle => absurd hle (not_le.mpr h), fun _ => he⟩
    rw [he] at heq
    linarith

/-- C5 witness: at `netAnnualRate = -2` (an annual loss of 200 %), the
monthly rate is exactly `-1`. -/
theorem C5_monthlyRate_cases_witness :
    calculateMonthlyRate (-2) = -1 ∧ ((-2 : ℝ) ≤ -1) :=
  ⟨(C5_monthlyRate_cases (-2)).1.mpr (by norm_num), by norm_num⟩

/-- C8: `futureValueReal` is `futureValue / inflationFactor` with
`inflationFactor = (1 + annualInflation/100) ^ years` whenever the factor is
nonzero, and `futureValue` unchanged when the factor is zero. -/
theorem C8_futureValueReal_formula (p : Params) :
    (generateMonthlySeries p).summary.futureValueReal =
      if (1 + p.annualInflation / 100) ^ p.years ≠ 0 then
        (generateMonthlySeries p).summary.futureValue /
          (1 + p.annualInflation / 100) ^ p.years
      else (generateMonthlySeries p).summary.futureValue := rfl

/-- C2: `futureValue` follows the closed-form ordinary-annuity formula with
the `1e-12` near-zero-rate cutoff, and for a monthly rate of exactly `0` it
is exactly `initialCapital + monthlyContribution * totalMonths`. -/
theorem C2_futureValue_formula (p : Params) :
    ((generateMonthlySeries p).summary.futureValue =
      if |(generateMonthlySeries p).summary.monthlyRate| < 1e-12 then
        p.initialCapital +
          p.monthlyContribution * (((generateMonthlySeries p).summary.totalMonths : ℤ) : ℝ)
      else
        p.initialCapital * (1 + (generateMonthlySeries p).summary.monthlyRate)
            ^ ((generateMonthlySeries p).summary.totalMonths : ℤ)
          + p.monthlyContribution *
            (((1 + (generateMonthlySeries p).summary.monthlyRate)
                ^ ((generateMonthlySeries p).summary.totalMonths : ℤ) - 1) /
              (generateMonthlySeries p).summary.monthlyRate)) ∧
    ((generateMonthlySeries p).summary.monthlyRate = 0 →
      (generateMonthlySeries p).summary.futureValue =
        p.initialCapital +
          p.monthlyContribution * (((generateMonthlySeries p).summary.totalMonths : ℤ) : ℝ)) := by
  have hmain : (generateMonthlySeries p).summary.futureValue =
      if |(generateMonthlySeries p).summary.monthlyRate| < 1e-12 then
        p.initialCapital +
          p.monthlyContribution * (((generateMonthlySeries p).summary.totalMonths : ℤ) : ℝ)
      else
        p.initialCapital * (1 + (generateMonthlySeries p).summary.monthlyRate)
            ^ ((generateMonthlySeries p).summary.totalMonths : ℤ)
          + p.monthlyContribution *
            (((1 + (generateMonthlySeries p).summary.monthlyRate)
                ^ ((generateMonthlySeries p).summary.totalMonths : ℤ) - 1) /
              (generateMonthlySeries p).summary.monthlyRate) := futureValue_def p
  refine ⟨hmain, fun h0 => ?_⟩
  rw [hmain, if_pos (by rw [h0]; norm_num)]

/-- C2 witness: the spec scenario `{1000, 100, 0 %, 0 %, 0 %, 2 years}` has a
zero monthly rate and `futureValue = 1000 + 100 * 24 = 3400` exactly. -/
theorem C2_futureValue_formula_witness :
    (generateMonthlySeries ⟨1000, 100, 0, 0, 0, 2⟩).summary.futureValue = 3400 := by
  have hmr : (generateMonthlySeries ⟨1000, 100, 0, 0, 0, 2⟩).summary.monthlyRate = 0 := by
    rw [monthlyRate_def]
    norm_num [calculateNetAnnualReturn, calculateMonthlyRate, Real.one_rpow]
  have h := (C2_futureValue_formula ⟨1000, 100, 0, 0, 0, 2⟩).2 hmr
  rw [h, totalMonths_def]
  rw [show ((2 : ℝ) * 12) = ((24 : ℤ) : ℝ) by norm_num, round_intCast]
  norm_num

/-- C9: the fallback policy of the future value: when the closed-form value
is finite it is used unchanged; when it is not, the last series entry's
`totalValue` is used, or `initialCapital` for an empty series.  (Finiteness
is an explicit flag of `fallbackFutureValue`, since every real number is
finite; `generateMonthlySeries` passes `true`.) -/
theorem C9_fallback_policy (formulaValue initialCapital : ℝ) :
    (∀ series : List SeriesEntry,
      fallbackFutureValue formulaValue true series initialCapital = formulaValue) ∧
    fallbackFutureValue formulaValue false [] initialCapital = initialCapital ∧
    ∀ (front : List SeriesEntry) (e : SeriesEntry),
      fallbackFutureValue formulaValue false (front ++ [e]) initialCapital =
        e.totalValue := by
  refine ⟨fun series => rfl, rfl, fun front e => ?_⟩
  simp [fallbackFutureValue, List.getLast?_concat]

/-- C4: every entry of the produced series satisfies
`totalValue = totalContributed + interestAccumulated` exactly. -/
theorem C4_totalValue_additivity (p : Params) (e : SeriesEntry)
    (he : e ∈ (generateMonthlySeries p).series) :
    e.totalValue = e.totalContributed + e.interestAccumulated :=
  simLoop_invariant _ _ _ _ _ _ e he

/-- C4 witness: the single-month run with total annual loss produces the
entry `{1, 1100, -1000, 100}`, for which the invariant holds. -/
theorem C4_totalValue_additivity_witness :
    (SeriesEntry.mk 1 1100 (-1000) 100).totalValue =
      (SeriesEntry.mk 1 1100 (-1000) 100).totalContributed +
        (SeriesEntry.mk 1 1100 (-1000) 100).interestAccumulated := by
  refine C4_totalValue_additivity ⟨1000, 100, -100, 0, 0, 1/12⟩ _ ?_
  have hser : (generateMonthlySeries ⟨1000, 100, -100, 0, 0, 1/12⟩).series =
      [⟨1, 1100, -1000, 100⟩] := by
    rw [series_def]
    norm_num [calculateNetAnnualReturn]
    rw [show calculateMonthlyRate (-1) = -1 by
      norm_num [calculateMonthlyRate]]
    norm_num [simLoop, SeriesEntry.mk.injEq]
  rw [hser]
  exact List.mem_singleton.mpr rfl

/-- C1: for inputs with a nonnegative month count, the series has exactly
`totalMonths = round(years * 12)` entries, with months numbered `1..totalMonths`;
entry `m` records the contributed accumulator `initialCapital + m * monthlyContribution`
and the balance of the recurrence that starts at `initialCapital` and each
month multiplies by `1 + monthlyRate` and then adds `monthlyContribution`,
with `interestAccumulated = balance - contributed`; `totalMonths = 0` gives
the empty series. -/
theorem C1_series_shape (p : Params)
    (hn : 0 ≤ (generateMonthlySeries p).summary.totalMonths) :
    (generateMonthlySeries p).summary.totalMonths = round (p.years * 12) ∧
    ((generateMonthlySeries p).series.length : ℤ) =
      (generateMonthlySeries p).summary.totalMonths ∧
    (∀ i : ℕ, i < (generateMonthlySeries p).series.length →
      (generateMonthlySeries p).series[i]? =
        some
          { month := i + 1
            totalContributed :=
              p.initialCapital + p.monthlyContribution * ((i : ℝ) + 1)
            interestAccumulated :=
              balanceAfter (generateMonthlySeries p).summary.monthlyRate
                  p.monthlyContribution p.initialCapital (i + 1) -
                (p.initialCapital + p.monthlyContribution * ((i : ℝ) + 1))
            totalValue :=
              balanceAfter (generateMonthlySeries p).summary.monthlyRate
                p.monthlyContribution p.initialCapital (i + 1) }) ∧
    ((generateMonthlySeries p).summary.totalMonths = 0 →
      (generateMonthlySeries p).series = []) := by
  have hlen : (generateMonthlySeries p).series.length =
      (round (p.years * 12)).toNat := by
    rw [series_def]; exact simLoop_length _ _ _ _ _ _
  refine ⟨rfl, ?_, ?_, ?_⟩
  · rw [hlen, totalMonths_def, Int.toNat_of_nonneg]
    rw [totalMonths_def] at hn
    exact hn
  · intro i hi
    rw [hlen] at hi
    rw [series_def, monthlyRate_def,
      simLoop_getElem? _ _ _ _ _ _ _ hi]
    norm_num [SeriesEntry.mk.injEq, Nat.add_comm]
  · intro h0
    rw [totalMonths_def] at h0
    rw [series_def, h0]
    rfl

/-- C1 witness: one year at zero net rate yields exactly `round(1 * 12) = 12`
entries. -/
theorem C1_series_shape_witness :
    ((generateMonthlySeries ⟨1000, 100, 0, 0, 0, 1⟩).series.length : ℤ) =
      (generateMonthlySeries ⟨1000, 100, 0, 0, 0, 1⟩).summary.totalMonths := by
  refine (C1_series_shape ⟨1000, 100, 0, 0, 0, 1⟩ ?_).2.1
  rw [totalMonths_def]
  rw [show ((1 : ℝ) * 12) = ((12 : ℤ) : ℝ) by norm_num, round_intCast]
  norm_num

/-- C3: for at least one month and a monthly rate at least `1e-12` in
magnitude, the closed-form `futureValue` and the last series entry's
`totalValue` agree within a relative tolerance of `1e-6` (over the reals
they are in fact equal: the iterative projection and the annuity formula
compute the same value). -/
theorem C3_closed_form_matches_series (p : Params) (e : SeriesEntry)
    (hn : 1 ≤ (generateMonthlySeries p).summary.totalMonths)
    (hr : 1e-12 ≤ |(generateMonthlySeries p).summary.monthlyRate|)
    (hlast : (generateMonthlySeries p).series.getLast? = some e) :
    |(generateMonthlySeries p).summary.futureValue - e.totalValue| ≤
      1e-6 * |(generateMonthlySeries p).summary.futureValue| := by
  rw [monthlyRate_def] at hr
  rw [totalMonths_def] at hn
  have hrne :
      calculateMonthlyRate (calculateNetAnnualReturn p.grossAnnualReturn p.annualFee) ≠ 0 := by
    intro h
    rw [h] at hr
    norm_num at hr
  have hk : 1 ≤ (round (p.years * 12)).toNat := by omega
  have hlen : (generateMonthlySeries p).series.length = (round (p.years * 12)).toNat := by
    rw [series_def]
    exact simLoop_length _ _ _ _ _ _
  rw [List.getLast?_eq_getElem?, hlen, series_def,
    simLoop_getElem? _ _ _ _ _ _ _ (by omega)] at hlast
  have he := Option.some.inj hlast
  have hval : e.totalValue =
      balanceAfter (calculateMonthlyRate (calculateNetAnnualReturn p.grossAnnualReturn p.annualFee))
        p.monthlyContribution p.initialCapital ((round (p.years * 12)).toNat) := by
    rw [← he]
    show balanceAfter _ _ _ ((round (p.years * 12)).toNat - 1 + 1) = _
    congr 1
    omega
  have hzp :
      (1 + calculateMonthlyRate (calculateNetAnnualReturn p.grossAnnualReturn p.annualFee))
          ^ ((round (p.years * 12) : ℤ)) =
        (1 + calculateMonthlyRate (calculateNetAnnualReturn p.grossAnnualReturn p.annualFee))
          ^ ((round (p.years * 12)).toNat) := by
    conv_lhs => rw [← Int.toNat_of_nonneg (by omega : (0 : ℤ) ≤ round (p.years * 12))]
    rw [zpow_natCast]
  have heq : (generateMonthlySeries p).summary.futureValue = e.totalValue := by
    rw [hval,
      balanceAfter_closed _ _ _ hrne ((round (p.years * 12)).toNat),
      futureValue_def, if_neg (not_lt.mpr hr), hzp]
  rw [heq, sub_self, abs_zero]
  positivity

/-- C3 witness: one month at a net annual rate of `-1` (monthly rate `-1`):
the closed form and the single series entry both give `100`. -/
theorem C3_closed_form_matches_series_witness :
    |(generateMonthlySeries ⟨1000, 100, -100, 0, 0, 1/12⟩).summary.futureValue -
        (SeriesEntry.mk 1 1100 (-1000) 100).totalValue| ≤
      1e-6 * |(generateMonthlySeries ⟨1000, 100, -100, 0, 0, 1/12⟩).summary.futureValue| := by
  have hmr : (generateMonthlySeries ⟨1000, 100, -100, 0, 0, 1/12⟩).summary.monthlyRate = -1 := by
    rw [monthlyRate_def]
    norm_num [calculateNetAnnualReturn, calculateMonthlyRate]
  refine C3_closed_form_matches_series ⟨1000, 100, -100, 0, 0, 1/12⟩ _ ?_ ?_ ?_
  · rw [totalMonths_def]
    norm_num
  · rw [hmr]
    norm_num
  · have hser : (generateMonthlySeries ⟨1000, 100, -100, 0, 0, 1/12⟩).series =
        [⟨1, 1100, -1000, 100⟩] := by
      rw [series_def]
      norm_num [calculateNetAnnualReturn]
      rw [show calculateMonthlyRate (-1) = -1 by norm_num [calculateMonthlyRate]]
      norm_num [simLoop, SeriesEntry.mk.injEq]
    rw [hser]
    rfl

/-- C7 counterexample: the all-zero-money input
`{initialCapital := 0, monthlyContribution := 0, gross := 0, fee := 0,
inflation := 10, years := 1}` is valid, has `annualInflation > 0` and
`years > 0`, yet `futureValueReal = futureValue = 0`, so the strict
inequality claimed fails. -/
theorem C7_counterexample :
    0 < (⟨0, 0, 0, 0, 10, 1⟩ : Params).annualInflation ∧
    0 < (⟨0, 0, 0, 0, 10, 1⟩ : Params).years ∧
    0 ≤ (⟨0, 0, 0, 0, 10, 1⟩ : Params).initialCapital ∧
    0 ≤ (⟨0, 0, 0, 0, 10, 1⟩ : Params).monthlyContribution ∧
    ¬ ((generateMonthlySeries ⟨0, 0, 0, 0, 10, 1⟩).summary.futureValueReal <
        (generateMonthlySeries ⟨0, 0, 0, 0, 10, 1⟩).summary.futureValue) := by
  refine ⟨by norm_num, by norm_num, by norm_num, by norm_num, ?_⟩
  have hmr : calculateMonthlyRate (calculateNetAnnualReturn
      (⟨0, 0, 0, 0, 10, 1⟩ : Params).grossAnnualReturn
      (⟨0, 0, 0, 0, 10, 1⟩ : Params).annualFee) = 0 := by
    norm_num [calculateNetAnnualReturn, calculateMonthlyRate, Real.one_rpow]
  have hfv : (generateMonthlySeries ⟨0, 0, 0, 0, 10, 1⟩).summary.futureValue = 0 := by
    rw [futureValue_def, if_pos (by rw [hmr]; norm_num)]
    norm_num
  have hcond : (1 + (⟨0, 0, 0, 0, 10, 1⟩ : Params).annualInflation / 100)
      ^ ((⟨0, 0, 0, 0, 10, 1⟩ : Params).years) ≠ 0 := by
    show (1 + (10 : ℝ) / 100) ^ ((1 : ℝ)) ≠ 0
    rw [Real.rpow_one]
    norm_num
  have hreal : (generateMonthlySeries ⟨0, 0, 0, 0, 10, 1⟩).summary.futureValueReal = 0 := by
    rw [futureValueReal_def, hfv, if_pos hcond, zero_div]
  rw [hreal, hfv]
  exact lt_irrefl 0

/-- C7 amended: for `annualInflation > 0`, `years > 0` and a strictly
positive nominal `futureValue`, the inflation-adjusted value is strictly
smaller than the nominal one.  (The positivity of `futureValue` is the
minimal extra hypothesis: with zero capital and zero contributions both
values are `0` and the strict inequality fails.) -/
theorem C7_real_lt_nominal (p : Params)
    (hi : 0 < p.annualInflation) (hy : 0 < p.years)
    (hfv : 0 < (generateMonthlySeries p).summary.futureValue) :
    (generateMonthlySeries p).summary.futureValueReal <
      (generateMonthlySeries p).summary.futureValue := by
  have hbase : 1 < 1 + p.annualInflation / 100 := by linarith
  have hfac : 1 < (1 + p.annualInflation / 100) ^ p.years := by
    rw [Real.one_lt_rpow_iff_of_pos (by linarith)]
    exact Or.inl ⟨hbase, hy⟩
  have hne : (1 + p.annualInflation / 100) ^ p.years ≠ 0 :=
    ne_of_gt (by linarith)
  rw [futureValueReal_def, if_pos hne]
  exact div_lt_self hfv hfac

/-- C7 amended witness: `{1000, 0, 0 %, 0 %, 10 %, 1 year}` has
`futureValue = 1000 > 0`, and the real value is strictly below it. -/
theorem C7_real_lt_nominal_witness :
    (generateMonthlySeries ⟨1000, 0, 0, 0, 10, 1⟩).summary.futureValueReal <
      (generateMonthlySeries ⟨1000, 0, 0, 0, 10, 1⟩).summary.futureValue := by
  refine C7_real_lt_nominal ⟨1000, 0, 0, 0, 10, 1⟩ (by norm_num) (by norm_num) ?_
  have hmr : calculateMonthlyRate (calculateNetAnnualReturn
      (⟨1000, 0, 0, 0, 10, 1⟩ : Params).grossAnnualReturn
      (⟨1000, 0, 0, 0, 10, 1⟩ : Params).annualFee) = 0 := by
    norm_num [calculateNetAnnualReturn, calculateMonthlyRate, Real.one_rpow]
  rw [futureValue_def, if_pos (by rw [hmr]; norm_num)]
  norm_num

/-- C10: with nonnegative capital and contribution (and a nonnegative month
count, as any validated input has), the monthly rate is at least `-1`, so the
growth factor is never negative: every series entry's `totalValue` is
nonnegative, and so is `futureValue`. -/
theorem C10_balances_nonneg (p : Params)
    (hP : 0 ≤ p.initialCapital) (hC : 0 ≤ p.monthlyContribution)
    (hy : 0 ≤ (generateMonthlySeries p).summary.totalMonths) :
    (-1 ≤ (generateMonthlySeries p).summary.monthlyRate) ∧
    (∀ e ∈ (generateMonthlySeries p).series, 0 ≤ e.totalValue) ∧
    0 ≤ (generateMonthlySeries p).summary.futureValue := by
  rw [totalMonths_def] at hy
  have hm1 :
      -1 ≤ calculateMonthlyRate (calculateNetAnnualReturn p.grossAnnualReturn p.annualFee) :=
    calculateMonthlyRate_ge _
  have hg0 :
      0 ≤ 1 + calculateMonthlyRate (calculateNetAnnualReturn p.grossAnnualReturn p.annualFee) := by
    linarith
  refine ⟨hm1, ?_, ?_⟩
  · intro e he
    rw [series_def] at he
    exact simLoop_nonneg _ _ hC hg0 _ _ _ _ hP e he
  · rw [futureValue_def]
    by_cases hcond :
        |calculateMonthlyRate (calculateNetAnnualReturn p.grossAnnualReturn p.annualFee)|
          < 1e-12
    · rw [if_pos hcond]
      have hcast : (0 : ℝ) ≤ ((round (p.years * 12) : ℤ) : ℝ) := by exact_mod_cast hy
      have := mul_nonneg hC hcast
      linarith
    · rw [if_neg hcond]
      have hrne :
          calculateMonthlyRate (calculateNetAnnualReturn p.grossAnnualReturn p.annualFee)
            ≠ 0 := by
        intro h
        rw [h] at hcond
        norm_num at hcond
      have hzp :
          (1 + calculateMonthlyRate (calculateNetAnnualReturn p.grossAnnualReturn p.annualFee))
              ^ ((round (p.years * 12) : ℤ)) =
            (1 + calculateMonthlyRate (calculateNetAnnualReturn p.grossAnnualReturn p.annualFee))
              ^ ((round (p.years * 12)).toNat) := by
        conv_lhs => rw [← Int.toNat_of_nonneg hy]
        rw [zpow_natCast]
      rw [hzp]
      have hpow0 :
          0 ≤ (1 + calculateMonthlyRate (calculateNetAnnualReturn p.grossAnnualReturn p.annualFee))
            ^ ((round (p.years * 12)).toNat) := pow_nonneg hg0 _
      rcases lt_or_gt_of_ne hrne with hneg | hpos
      · have hg1 :
            1 + calculateMonthlyRate (calculateNetAnnualReturn p.grossAnnualReturn p.annualFee)
              ≤ 1 := by linarith
        have hpow1 :
            (1 + calculateMonthlyRate (calculateNetAnnualReturn p.grossAnnualReturn p.annualFee))
              ^ ((round (p.years * 12)).toNat) ≤ 1 := pow_le_one₀ hg0 hg1
        have hdiv :
            0 ≤ ((1 + calculateMonthlyRate
                  (calculateNetAnnualReturn p.grossAnnualReturn p.annualFee))
                ^ ((round (p.years * 12)).toNat) - 1) /
              calculateMonthlyRate (calculateNetAnnualReturn p.grossAnnualReturn p.annualFee) :=
          div_nonneg_of_nonpos (by linarith) (le_of_lt hneg)
        have h1 := mul_nonneg hP hpow0
        have h2 := mul_nonneg hC hdiv
        linarith
      · have hg1 :
            1 ≤ 1 + calculateMonthlyRate (calculateNetAnnualReturn p.grossAnnualReturn p.annualFee) := by
          linarith
        have hpow1 :
            1 ≤ (1 + calculateMonthlyRate
                (calculateNetAnnualReturn p.grossAnnualReturn p.annualFee))
              ^ ((round (p.years * 12)).toNat) := one_le_pow₀ hg1
        have hdiv :
            0 ≤ ((1 + calculateMonthlyRate
                  (calculateNetAnnualReturn p.grossAnnualReturn p.annualFee))
                ^ ((round (p.years * 12)).toNat) - 1) /
              calculateMonthlyRate (calculateNetAnnualReturn p.grossAnnualReturn p.annualFee) :=
          div_nonneg (by linarith) (le_of_lt hpos)
        have h1 := mul_nonneg hP hpow0
        have h2 := mul_nonneg hC hdiv
        linarith

/-- C10 witness: `{1000, 100, 0, 0, 0, 1}` yields a nonnegative
`futureValue`. -/
theorem C10_balances_nonneg_witness :
    0 ≤ (generateMonthlySeries ⟨1000, 100, 0, 0, 0, 1⟩).summary.futureValue := by
  refine (C10_balances_nonneg ⟨1000, 100, 0, 0, 0, 1⟩ (by norm_num) (by norm_num) ?_).2.2
  rw [totalMonths_def]
  norm_num

end InvestmentSimulator
